import Mathlib

/-!
Verification of the surf-forecast scoring and window-selection backend.

Shallow embedding of the Python sources:
* `src/scoring/wave_scoring.py` and `src/scoring/surf_rating.py` (the Scorer),
* `src/scoring/half_daily_scoring.py` and `src/scoring/daily_scoring.py` (daylight masks),
* `src/utils/db_manager.py` (the Store and its freshness ledger),
* `src/services/data_fetcher.py` and `src/services/unified_data_refresh.py` (refresh triggers),
* `src/window_selection/optimal_windows.py` (the Window Selector),
* `src/api/forecast_api.py` (read views and tide lookup).

Measurements (heights, periods, speeds, directions, hours) are modelled as
rationals; point scores as integers.  All definitions follow the Python
control flow; comments note the few places where a Python/pandas idiosyncrasy
(NaN propagation, float display rounding) is reflected or irrelevant.
-/

/-! ## Scorer: `src/scoring/wave_scoring.py` -/

/-- Meters-to-feet factor used by both `score_wave_height` and
`calculate_surf_rating` (`wave_height * 3.28084`). -/
def feetPerMeter : ℚ := 3.28084

/-- `score_swell_direction(wave_direction, ideal_range)`.

Returns 0 inside the ideal range (wrap-aware when `max_dir < min_dir`),
-1 inside the 30° buffer, -10 otherwise.  In the source the buffer test
carries an explicit `and not (core)` conjunct; here the buffer test is only
reached when the core test already failed, which makes that conjunct
redundantly true, so it is dropped without changing the function. -/
def score_swell_direction (wave_direction : ℚ) (ideal_range : ℚ × ℚ) : ℤ :=
  let min_dir := ideal_range.1
  let max_dir := ideal_range.2
  let buffer : ℚ := 30
  if max_dir < min_dir then  -- crosses the 0/360 boundary
    if min_dir ≤ wave_direction ∨ wave_direction ≤ max_dir then 0
    else if min_dir - buffer ≤ wave_direction ∨ wave_direction ≤ max_dir + buffer then -1
    else -10
  else
    if min_dir ≤ wave_direction ∧ wave_direction ≤ max_dir then 0
    else if min_dir - buffer ≤ wave_direction ∧ wave_direction ≤ max_dir + buffer then -1
    else -10

/-- `score_wind_direction_speed(wind_direction, wind_speed, ideal_range)`. -/
def score_wind_direction_speed (wind_direction wind_speed : ℚ) (ideal_range : ℚ × ℚ) : ℤ :=
  let min_dir := ideal_range.1
  let max_dir := ideal_range.2
  let favorable : Prop :=
    if max_dir < min_dir then min_dir ≤ wind_direction ∨ wind_direction ≤ max_dir
    else min_dir ≤ wind_direction ∧ wind_direction ≤ max_dir
  if favorable then
    if 5 ≤ wind_speed ∧ wind_speed ≤ 12 then 2
    else if 12 < wind_speed ∧ wind_speed ≤ 20 then 1
    else if 20 < wind_speed ∧ wind_speed ≤ 30 then 0
    else if 30 < wind_speed ∧ wind_speed ≤ 40 then -1
    else if 40 < wind_speed then -3
    else 2  -- wind_speed < 5: light favorable winds
  else
    if wind_speed < 3 then 1
    else if 3 ≤ wind_speed ∧ wind_speed ≤ 6 then 0
    else if 6 < wind_speed ∧ wind_speed ≤ 10 then -1
    else if 10 < wind_speed ∧ wind_speed ≤ 20 then -4
    else -6

/-- `score_wave_period(period)`. -/
def score_wave_period (period : ℚ) : ℤ :=
  if period < 6 then -4
  else if 6 ≤ period ∧ period < 8 then -2
  else if 8 ≤ period ∧ period < 10 then -1
  else if 10 ≤ period ∧ period < 11.5 then 0
  else if 11.5 ≤ period ∧ period < 14 then 1
  else 2  -- period >= 14

/-- `score_wave_height(wave_height)`: converts meters to feet, then applies
the threshold table. -/
def score_wave_height (wave_height : ℚ) : ℤ :=
  let wave_height_ft := wave_height * feetPerMeter
  if wave_height_ft < 1 then 1
  else if 1 ≤ wave_height_ft ∧ wave_height_ft < 2 then 2
  else if 2 ≤ wave_height_ft ∧ wave_height_ft < 3 then 3
  else if 3 ≤ wave_height_ft ∧ wave_height_ft < 5 then 4
  else 5  -- wave_height_ft >= 5

/-- Total points as computed in `score_forecast`:
`raw_total.clip(lower=1, upper=10)` over the four component columns. -/
def total_points_of (swell wind height period : ℤ) : ℤ :=
  max 1 (min (swell + wind + height + period) 10)

/-! ## Rating: `src/scoring/surf_rating.py` -/

/-- A spot configuration as far as the rating code reads it: the optional
`wind_dir_range` entry of the spot dictionary.  An absent dictionary is
modelled by `Option` at the call sites. -/
structure SpotConfig where
  wind_dir_range : Option (ℚ × ℚ)

/-- `get_wind_relationship(wind_direction, spot_config)`.  Returns
`"unfavorable"` when the configuration is absent (Python falsy) or lacks the
`wind_dir_range` key; otherwise tests wrap-aware membership. -/
def get_wind_relationship (wind_direction : ℚ) (spot_config : Option SpotConfig) : String :=
  match spot_config with
  | none => "unfavorable"  -- default to unfavorable if no config
  | some cfg =>
    match cfg.wind_dir_range with
    | none => "unfavorable"
    | some (min_wind, max_wind) =>
      if min_wind > max_wind then
        -- range crosses 0 degrees
        if wind_direction ≥ min_wind ∨ wind_direction ≤ max_wind then "favorable"
        else "unfavorable"
      else
        if min_wind ≤ wind_direction ∧ wind_direction ≤ max_wind then "favorable"
        else "unfavorable"

/-- `_get_favorable_rating(wave_height_ft, wave_period)`, exactly in the
source's branch order (note the `wave_period < 9` branch sits after the
`wave_period < 11` branch). -/
def get_favorable_rating (wave_height_ft wave_period : ℚ) : String :=
  if wave_height_ft < 1 then "No surf"
  else if wave_height_ft < 3 then "Small"
  else if 7 ≤ wave_height_ft ∧ 19 < wave_period then "Epic"
  else if 7 ≤ wave_height_ft ∧ 15 < wave_period then "Firing"
  else if 5 < wave_height_ft ∧ 13 < wave_period then "Pumping"
  else if 3 ≤ wave_height_ft ∧ 11 < wave_period then "Good"
  else if 3 ≤ wave_height_ft ∧ wave_period < 11 then "Fun"
  else if 3 ≤ wave_height_ft ∧ wave_period < 9 then "Fair"
  else "Small"

/-- The favorable-wind rating lexicon as written in the specification's
glossary (`≥3 ∧ period∈[9,11] → Fun`; `≥3 ∧ period<9 → Fair`), kept separate
from `get_favorable_rating` so the two can be compared. -/
def spec_favorable_rating (wave_height_ft wave_period : ℚ) : String :=
  if wave_height_ft < 1 then "No surf"
  else if wave_height_ft < 3 then "Small"
  else if 7 ≤ wave_height_ft ∧ 19 < wave_period then "Epic"
  else if 7 ≤ wave_height_ft ∧ 15 < wave_period then "Firing"
  else if 5 < wave_height_ft ∧ 13 < wave_period then "Pumping"
  else if 3 ≤ wave_height_ft ∧ 11 < wave_period then "Good"
  else if 3 ≤ wave_height_ft ∧ 9 ≤ wave_period ∧ wave_period ≤ 11 then "Fun"
  else if 3 ≤ wave_height_ft ∧ wave_period < 9 then "Fair"
  else "Small"

/-- `_get_unfavorable_rating(wave_height_ft, wave_period, wind_speed)`
(the `wind_speed` parameter is accepted but unread in the source body). -/
def get_unfavorable_rating (wave_height_ft wave_period _wind_speed : ℚ) : String :=
  if wave_height_ft < 3 ∧ wave_period < 8 then "Slop"
  else if (3 ≤ wave_height_ft ∧ wave_height_ft ≤ 5) ∧ (8 ≤ wave_period ∧ wave_period ≤ 12) then "Mush"
  else if 3 ≤ wave_height_ft ∧ 12 < wave_period then "Messy"
  else "Meh"

/-- Result of `calculate_surf_rating`.  The 1-decimal display copy of the
height and the `conditions_summary` string are presentation fields no claim
reads, so only the rating and the wind relationship are carried. -/
structure RatingInfo where
  rating : String
  wind_relationship : String
deriving DecidableEq

/-- `calculate_surf_rating(wave_height, wave_period, wind_speed,
wind_direction, spot_config)`. -/
def calculate_surf_rating (wave_height wave_period wind_speed wind_direction : ℚ)
    (spot_config : Option SpotConfig) : RatingInfo :=
  let wave_height_ft := wave_height * feetPerMeter
  let wind_relationship := get_wind_relationship wind_direction spot_config
  if wind_relationship = "favorable" then
    { rating := get_favorable_rating wave_height_ft wave_period
      wind_relationship := wind_relationship }
  else
    { rating := get_unfavorable_rating wave_height_ft wave_period wind_speed
      wind_relationship := wind_relationship }

/-! ## Claims about the Scorer -/

/-- Claim C1 (counterexample): at the Scenario-A input, wave 0.914 m is
2.99868776 ft, strictly below 3 ft, so the claimed point vector
(height 4, total 7, rating "Good") is false on the code. -/
theorem C1_counterexample :
    ¬(score_wave_height 0.914 = 4
      ∧ total_points_of (score_swell_direction 290 (260, 340))
          (score_wind_direction_speed 60 10 (45, 135))
          (score_wave_height 0.914) (score_wave_period 12) = 7
      ∧ (calculate_surf_rating 0.914 12 10 60 (some ⟨some (45, 135)⟩)).rating = "Good") := by
  intro h
  have h1 := h.1
  rw [show (0.914 : ℚ) = 914 / 1000 by norm_num] at h1
  simp only [score_wave_height, feetPerMeter] at h1
  norm_num at h1

/-- Claim C1 (amended): at the Scenario-A input the Scorer yields
swell 0, wind +2, height 3, period +1, total 6, rating "Small",
wind relationship "favorable". -/
theorem C1_scenario_a :
    score_swell_direction 290 (260, 340) = 0
    ∧ score_wind_direction_speed 60 10 (45, 135) = 2
    ∧ score_wave_height 0.914 = 3
    ∧ score_wave_period 12 = 1
    ∧ total_points_of 0 2 3 1 = 6
    ∧ (calculate_surf_rating 0.914 12 10 60 (some ⟨some (45, 135)⟩)).rating = "Small"
    ∧ (calculate_surf_rating 0.914 12 10 60 (some ⟨some (45, 135)⟩)).wind_relationship
        = "favorable" := by
  refine ⟨?_, ?_, ?_, ?_, ?_, ?_, ?_⟩ <;>
    simp only [score_swell_direction, score_wind_direction_speed, score_wave_height,
      score_wave_period, total_points_of, calculate_surf_rating, get_wind_relationship,
      get_favorable_rating, feetPerMeter] <;>
    norm_num

/-- Claim C2: the favorable lexicon in the code disagrees with the claim.
At 4 ft / 8 s the code answers "Fun" where the claimed lexicon answers
"Fair"; at 4 ft / 11 s the code answers "Small" where the claim answers
"Fun"; and the code's "Fair" branch is unreachable for every input, because
any input with height ≥ 3 ft and period < 9 s is already captured by the
`period < 11` "Fun" branch. -/
theorem C2_favorable_lexicon_bug :
    get_favorable_rating 4 8 = "Fun"
    ∧ spec_favorable_rating 4 8 = "Fair"
    ∧ get_favorable_rating 4 11 = "Small"
    ∧ spec_favorable_rating 4 11 = "Fun"
    ∧ ∀ wave_height_ft wave_period : ℚ,
        get_favorable_rating wave_height_ft wave_period ≠ "Fair" := by
  refine ⟨by norm_num [get_favorable_rating], by norm_num [spec_favorable_rating],
    by norm_num [get_favorable_rating], by norm_num [spec_favorable_rating], ?_⟩
  intro ft p
  unfold get_favorable_rating
  split
  · simp
  · split
    · simp
    · split
      · simp
      · split
        · simp
        · split
          · simp
          · split
            · simp
            · split
              · simp
              · rename_i h1 h2 h3 h4 h5 hgood hfun
                split
                · rename_i hfair
                  exact absurd ⟨hfair.1, lt_trans hfair.2 (by norm_num)⟩ hfun
                · simp

/-- Claim C10: with an absent spot configuration, or one lacking a
`wind_dir_range`, the wind relationship is always "unfavorable" (never
"unknown"), and the surf rating is drawn from the unfavorable-wind lexicon. -/
theorem C10_missing_config_unfavorable :
    ∀ (wave_height wave_period wind_speed wind_direction : ℚ),
      get_wind_relationship wind_direction none = "unfavorable"
      ∧ get_wind_relationship wind_direction (some ⟨none⟩) = "unfavorable"
      ∧ (∀ cfg : Option SpotConfig,
          get_wind_relationship wind_direction cfg ≠ "unknown")
      ∧ (calculate_surf_rating wave_height wave_period wind_speed wind_direction none).rating
          = get_unfavorable_rating (wave_height * feetPerMeter) wave_period wind_speed
      ∧ (calculate_surf_rating wave_height wave_period wind_speed wind_direction
            (some ⟨none⟩)).rating
          = get_unfavorable_rating (wave_height * feetPerMeter) wave_period wind_speed := by
  intro h p ws wd
  refine ⟨rfl, rfl, ?_, ?_, ?_⟩
  · intro cfg
    match cfg with
    | none => simp [get_wind_relationship]
    | some c =>
      match hc : c.wind_dir_range with
      | none => simp [get_wind_relationship, hc]
      | some (mn, mx) =>
        simp only [get_wind_relationship, hc]
        split
        · split <;> simp
        · split <;> simp
  · simp [calculate_surf_rating, get_wind_relationship]
  · simp [calculate_surf_rating, get_wind_relationship]

/-! ## Daylight masks: `src/scoring/half_daily_scoring.py` and
`src/scoring/daily_scoring.py`

A local timestamp is split into its date and its time of day in minutes
after midnight.  `daylight_times` is the date-indexed sunrise/sunset map the
aggregators build from the daily-weather rows. -/

/-- `is_daylight` from `half_daily_scoring.py`: with no entry for the date it
returns `True` (every hour retained); otherwise inclusive
`sunrise <= t <= sunset`. -/
def half_daily_is_daylight (daylight_times : List (ℤ × (ℚ × ℚ)))
    (date : ℤ) (time_of_day : ℚ) : Bool :=
  match daylight_times.lookup date with
  | none => true  -- default to True if we don't have data
  | some (sunrise, sunset) => decide (sunrise ≤ time_of_day ∧ time_of_day ≤ sunset)

/-- `is_daylight` from `daily_scoring.py`: with no entry for the date it
defaults to the inclusive 06:00-18:00 window (360 to 1080 minutes). -/
def daily_is_daylight (daylight_times : List (ℤ × (ℚ × ℚ)))
    (date : ℤ) (time_of_day : ℚ) : Bool :=
  match daylight_times.lookup date with
  | none => decide (6 * 60 ≤ time_of_day ∧ time_of_day ≤ 18 * 60)
  | some (sunrise, sunset) => decide (sunrise ≤ time_of_day ∧ time_of_day ≤ sunset)

/-! ## Claims about the daylight masks -/

/-- Claim C6 (counterexample): at 03:00 local (180 minutes) on a date with
no daily-weather row, the half-day aggregator retains the hour although the
claimed default window [06:00, 18:00] excludes it; the daily aggregator
drops it. -/
theorem C6_counterexample :
    half_daily_is_daylight [] 0 180 = true
    ∧ daily_is_daylight [] 0 180 = false
    ∧ ¬((6 * 60 : ℚ) ≤ 180 ∧ (180 : ℚ) ≤ 18 * 60) := by
  refine ⟨rfl, by norm_num [daily_is_daylight], by norm_num⟩

/-- Claim C6 (amended): when the date has no daily-weather row the daily
aggregator retains an hour exactly when its local time lies in the inclusive
default window [06:00, 18:00], while the half-day aggregator retains every
hour; when a row exists both aggregators retain the hour exactly when its
local time lies in the inclusive [sunrise, sunset] window. -/
theorem C6_daylight_masks (daylight_times : List (ℤ × (ℚ × ℚ)))
    (date : ℤ) (time_of_day : ℚ) :
    (daylight_times.lookup date = none →
      half_daily_is_daylight daylight_times date time_of_day = true
      ∧ (daily_is_daylight daylight_times date time_of_day = true
          ↔ 6 * 60 ≤ time_of_day ∧ time_of_day ≤ 18 * 60))
    ∧ (∀ sunrise sunset : ℚ, daylight_times.lookup date = some (sunrise, sunset) →
        ((half_daily_is_daylight daylight_times date time_of_day = true
            ↔ sunrise ≤ time_of_day ∧ time_of_day ≤ sunset)
        ∧ (daily_is_daylight daylight_times date time_of_day = true
            ↔ sunrise ≤ time_of_day ∧ time_of_day ≤ sunset))) := by
  constructor
  · intro hnone
    constructor
    · simp [half_daily_is_daylight, hnone]
    · simp [daily_is_daylight, hnone]
  · intro sunrise sunset hsome
    constructor
    · simp [half_daily_is_daylight, hsome]
    · simp [daily_is_daylight, hsome]

/-- Claim C6 witness: the amended theorem applied at a date with a
daily-weather row (sunrise 06:30 = 390, sunset 19:30 = 1170) and the hour
07:00 (420 minutes). -/
theorem C6_daylight_masks_witness :
    half_daily_is_daylight [(0, (390, 1170))] 0 420 = true
    ∧ daily_is_daylight [(0, (390, 1170))] 0 420 = true := by
  have h := (C6_daylight_masks [(0, (390, 1170))] 0 420).2 390 1170 rfl
  exact ⟨h.1.mpr (by norm_num), h.2.mpr (by norm_num)⟩

/-! ## Store: `src/utils/db_manager.py`

Rows are modelled as `(spot_id, payload)` pairs; the payload is an opaque
natural number because the claims about the Store concern which rows survive
an upsert, not their contents.  The `update_log` table keeps one optional
timestamp per layer per spot; `now` is passed explicitly where the source
reads the wall clock. -/

/-- One `update_log` row: `last_*_update` timestamps (epoch hours). -/
structure LedgerEntry where
  last_weather_update : Option ℚ
  last_marine_update : Option ℚ
  last_daily_update : Option ℚ
  last_scored_forecast_update : Option ℚ
  last_half_day_update : Option ℚ
  last_daily_scores_update : Option ℚ
deriving DecidableEq

/-- A fresh `update_log` row (all columns NULL). -/
def emptyLedgerEntry : LedgerEntry := ⟨none, none, none, none, none, none⟩

/-- The `UPDATE update_log SET last_<layer>_update = now` part of
`_update_last_fetch`, dispatching on the `data_type` string. -/
def setLedgerField (e : LedgerEntry) (data_type : String) (now : ℚ) : LedgerEntry :=
  if data_type = "weather" then { e with last_weather_update := some now }
  else if data_type = "marine" then { e with last_marine_update := some now }
  else if data_type = "daily" then { e with last_daily_update := some now }
  else if data_type = "scored_forecast" then { e with last_scored_forecast_update := some now }
  else if data_type = "half_day" then { e with last_half_day_update := some now }
  else if data_type = "daily_scores" then { e with last_daily_scores_update := some now }
  else e

/-- `_update_last_fetch(spot_id, data_type)`: `INSERT OR IGNORE` the spot
row, then update the one column for `data_type`. -/
def update_last_fetch (spot_id data_type : String) (now : ℚ)
    (log : List (String × LedgerEntry)) : List (String × LedgerEntry) :=
  let log' := if log.any (fun e => e.1 = spot_id) then log
              else log ++ [(spot_id, emptyLedgerEntry)]
  log'.map (fun e => if e.1 = spot_id then (e.1, setLedgerField e.2 data_type now) else e)

/-- The six row tables plus the freshness ledger. -/
structure SurfDataDB where
  weather_data : List (String × ℕ)
  marine_data : List (String × ℕ)
  daily_weather : List (String × ℕ)
  scored_forecasts : List (String × ℕ)
  half_day_scores : List (String × ℕ)
  daily_scores : List (String × ℕ)
  update_log : List (String × LedgerEntry)
deriving DecidableEq

/-- `store_weather_data(spot_id, weather_df)`: writes via
`to_sql('weather_data', ..., if_exists='replace')`, which drops the whole
`weather_data` table and recreates it from this one spot's rows, then stamps
the weather ledger column. -/
def store_weather_data (db : SurfDataDB) (spot_id : String) (rows : List ℕ)
    (now : ℚ) : SurfDataDB :=
  { db with
    weather_data := rows.map (fun r => (spot_id, r))
    update_log := update_last_fetch spot_id "weather" now db.update_log }

/-- `store_marine_data`: `DELETE FROM marine_data WHERE spot_id = ?`, then
append the new rows, then stamp the marine ledger column. -/
def store_marine_data (db : SurfDataDB) (spot_id : String) (rows : List ℕ)
    (now : ℚ) : SurfDataDB :=
  { db with
    marine_data := db.marine_data.filter (fun e => e.1 ≠ spot_id)
      ++ rows.map (fun r => (spot_id, r))
    update_log := update_last_fetch spot_id "marine" now db.update_log }

/-- `store_daily_weather`: per-spot delete, append, stamp `daily`. -/
def store_daily_weather (db : SurfDataDB) (spot_id : String) (rows : List ℕ)
    (now : ℚ) : SurfDataDB :=
  { db with
    daily_weather := db.daily_weather.filter (fun e => e.1 ≠ spot_id)
      ++ rows.map (fun r => (spot_id, r))
    update_log := update_last_fetch spot_id "daily" now db.update_log }

/-- `store_scored_forecast`: per-spot delete, append, stamp
`scored_forecast`. -/
def store_scored_forecast (db : SurfDataDB) (spot_id : String) (rows : List ℕ)
    (now : ℚ) : SurfDataDB :=
  { db with
    scored_forecasts := db.scored_forecasts.filter (fun e => e.1 ≠ spot_id)
      ++ rows.map (fun r => (spot_id, r))
    update_log := update_last_fetch spot_id "scored_forecast" now db.update_log }

/-- `store_half_day_scores`: per-spot delete, append, stamp `half_day`. -/
def store_half_day_scores (db : SurfDataDB) (spot_id : String) (rows : List ℕ)
    (now : ℚ) : SurfDataDB :=
  { db with
    half_day_scores := db.half_day_scores.filter (fun e => e.1 ≠ spot_id)
      ++ rows.map (fun r => (spot_id, r))
    update_log := update_last_fetch spot_id "half_day" now db.update_log }

/-- `store_daily_scores`: per-spot delete, append, stamp `daily_scores`. -/
def store_daily_scores (db : SurfDataDB) (spot_id : String) (rows : List ℕ)
    (now : ℚ) : SurfDataDB :=
  { db with
    daily_scores := db.daily_scores.filter (fun e => e.1 ≠ spot_id)
      ++ rows.map (fun r => (spot_id, r))
    update_log := update_last_fetch spot_id "daily_scores" now db.update_log }

/-! ## Claim about the Store -/

/-- A two-spot store used to exercise the upsert operations: spots "a" and
"b" each own one row in every layer, and both have fully stamped ledgers. -/
def twoSpotDB : SurfDataDB :=
  { weather_data := [("a", 1), ("b", 2)]
    marine_data := [("a", 3), ("b", 4)]
    daily_weather := [("a", 5), ("b", 6)]
    scored_forecasts := [("a", 7), ("b", 8)]
    half_day_scores := [("a", 9), ("b", 10)]
    daily_scores := [("a", 11), ("b", 12)]
    update_log := [("a", ⟨some 1, some 1, some 1, some 1, some 1, some 1⟩),
                   ("b", ⟨some 1, some 1, some 1, some 1, some 1, some 1⟩)] }

/-- Claim C3: upserting weather rows for spot "a" erases spot "b"'s weather
rows (the weather layer replaces the whole table), violating the per-spot
frame property; the marine layer, by contrast, preserves the other spot's
rows, and in both cases only the written layer's ledger column for "a" is
advanced. -/
theorem C3_weather_upsert_clobbers_other_spots :
    (store_weather_data twoSpotDB "a" [100] 9).weather_data = [("a", 100)]
    ∧ ("b", 2) ∉ (store_weather_data twoSpotDB "a" [100] 9).weather_data
    ∧ (store_marine_data twoSpotDB "a" [100] 9).marine_data = [("b", 4), ("a", 100)]
    ∧ (store_weather_data twoSpotDB "a" [100] 9).update_log
        = [("a", ⟨some 9, some 1, some 1, some 1, some 1, some 1⟩),
           ("b", ⟨some 1, some 1, some 1, some 1, some 1, some 1⟩)]
    ∧ (store_marine_data twoSpotDB "a" [100] 9).update_log
        = [("a", ⟨some 1, some 9, some 1, some 1, some 1, some 1⟩),
           ("b", ⟨some 1, some 1, some 1, some 1, some 1, some 1⟩)] := by
  refine ⟨rfl, by decide, rfl, ?_, ?_⟩ <;>
    simp [store_weather_data, store_marine_data, twoSpotDB, update_last_fetch,
      setLedgerField, emptyLedgerEntry]

/-! ## Refresh triggers: `src/services/data_fetcher.py` and
`src/services/unified_data_refresh.py`

The freshness ledger is summarised by the age, in hours, of each layer's
last-update timestamp (`none` when the ledger has no entry, which the policy
also treats as stale).  External outcomes the services cannot decide — did
a provider fetch (and its store) succeed, is a layer non-empty when read
back — enter as explicit boolean parameters. -/

/-- Ages of the six ledger columns for one spot. -/
structure UpdateAges where
  weather : Option ℚ
  marine : Option ℚ
  daily : Option ℚ
  scored_forecast : Option ℚ
  half_day : Option ℚ
  daily_scores : Option ℚ

/-- `needs_update(spot_id, data_type, hours_threshold)` from
`db_manager.py`: true when the ledger entry is absent or strictly older than
the threshold (`last_update < now - timedelta(hours=threshold)`). -/
def needs_update (age : Option ℚ) (hours_threshold : ℚ) : Bool :=
  match age with
  | none => true
  | some a => decide (hours_threshold < a)

/-- `needs_weather` in `SurfDataFetcher._update_spot_data`. -/
def fetcher_needs_weather (force : Bool) (ages : UpdateAges) (threshold : ℚ) : Bool :=
  force || needs_update ages.weather threshold

/-- `needs_marine` in `SurfDataFetcher._update_spot_data`. -/
def fetcher_needs_marine (force : Bool) (ages : UpdateAges) (threshold : ℚ) : Bool :=
  force || needs_update ages.marine threshold

/-- `needs_daily` in `SurfDataFetcher._update_spot_data`. -/
def fetcher_needs_daily (force : Bool) (ages : UpdateAges) (threshold : ℚ) : Bool :=
  force || needs_update ages.daily threshold

/-- `needs_scored` in `SurfDataFetcher._update_spot_data`: stale scored
layer, or raw data about to change. -/
def fetcher_needs_scored (force : Bool) (ages : UpdateAges) (threshold : ℚ) : Bool :=
  force || needs_update ages.scored_forecast threshold
    || fetcher_needs_weather force ages threshold
    || fetcher_needs_marine force ages threshold

/-- `needs_half_day` in `SurfDataFetcher._update_spot_data`. -/
def fetcher_needs_half_day (force : Bool) (ages : UpdateAges) (threshold : ℚ) : Bool :=
  force || needs_update ages.half_day threshold
    || fetcher_needs_scored force ages threshold

/-- `needs_daily_scores` in `SurfDataFetcher._update_spot_data`. -/
def fetcher_needs_daily_scores (force : Bool) (ages : UpdateAges) (threshold : ℚ) : Bool :=
  force || needs_update ages.daily_scores threshold
    || fetcher_needs_scored force ages threshold

/-- The per-layer `*_updated` flags of one `_update_spot_data` run. -/
structure FetcherStatus where
  weather_updated : Bool
  marine_updated : Bool
  daily_updated : Bool
  scored_forecast_updated : Bool
  half_day_updated : Bool
  daily_scores_updated : Bool
deriving DecidableEq

/-- `SurfDataFetcher._update_spot_data`, reduced to which layers it writes.
`weather_fetch_ok` / `marine_fetch_ok` say whether the corresponding
provider call succeeded; `has_weather_rows` / `has_marine_rows` whether the
raw layers are non-empty when read back for scoring, and
`has_scored_rows` / `has_daily_rows` likewise for the aggregation steps.
The steps run in the source's order: raw fetches, scored, half-day, daily
scores. -/
def update_spot_data (force : Bool) (ages : UpdateAges) (threshold : ℚ)
    (weather_fetch_ok marine_fetch_ok : Bool)
    (has_weather_rows has_marine_rows has_scored_rows has_daily_rows : Bool) :
    FetcherStatus :=
  let needs_weather := fetcher_needs_weather force ages threshold
  let needs_marine := fetcher_needs_marine force ages threshold
  let needs_daily := fetcher_needs_daily force ages threshold
  let needs_scored := fetcher_needs_scored force ages threshold
  let needs_half_day := fetcher_needs_half_day force ages threshold
  let needs_daily_scores := fetcher_needs_daily_scores force ages threshold
  { weather_updated := needs_weather && weather_fetch_ok
    marine_updated := needs_marine && marine_fetch_ok
    daily_updated := needs_daily && weather_fetch_ok
    scored_forecast_updated := needs_scored && has_weather_rows && has_marine_rows
    half_day_updated := needs_half_day && has_scored_rows && has_daily_rows
    daily_scores_updated := needs_daily_scores && has_scored_rows && has_daily_rows }

/-- `UnifiedDataRefresh.refresh_spot`, reduced to which layers it writes.
The raw thresholds are hard-coded to 6 h in the source.  Unlike the fetcher,
its scored step is gated on `weather_fetched or marine_fetched or force` —
there is no freshness check of the scored layer itself — and its half-day
and daily-scores steps are gated on `scored_forecast_updated or force`. -/
def unified_refresh_spot (force : Bool) (ages : UpdateAges)
    (weather_fetch_ok marine_fetch_ok : Bool)
    (has_weather_rows has_marine_rows has_scored_rows has_daily_rows : Bool) :
    FetcherStatus :=
  let needs_weather := force || needs_update ages.weather 6
  let needs_marine := force || needs_update ages.marine 6
  let weather_fetched := (needs_weather || force) && weather_fetch_ok
  let marine_fetched := (needs_marine || force) && marine_fetch_ok
  let scored_updated :=
    (weather_fetched || marine_fetched || force) && has_weather_rows && has_marine_rows
  { weather_updated := weather_fetched
    marine_updated := marine_fetched
    -- the unified service stores daily weather inside the weather branch
    daily_updated := weather_fetched
    scored_forecast_updated := scored_updated
    half_day_updated := (scored_updated || force) && has_scored_rows && has_daily_rows
    daily_scores_updated := (scored_updated || force) && has_scored_rows && has_daily_rows }

/-! ## Claims about the refresh triggers -/

/-- Ledger ages of Scenario F: weather 7 h, marine 2 h, scored 1 h,
half-day 1 h old; the daily layers are also within threshold. -/
def scenarioFAges : UpdateAges :=
  { weather := some 7, marine := some 2, daily := some 1
    scored_forecast := some 1, half_day := some 1, daily_scores := some 1 }

/-- Ledger ages with fresh raw layers but a stale scored layer. -/
def staleScoredAges : UpdateAges :=
  { weather := some 1, marine := some 1, daily := some 1
    scored_forecast := some 10, half_day := some 1, daily_scores := some 1 }

/-- Claim C5 (counterexample): with raw layers fresh and the scored layer
10 h old at a 6 h threshold, `UnifiedDataRefresh.refresh_spot` does not
re-derive the scored layer even though the claimed trigger
`fresh_check(scored) ∨ needs_weather ∨ needs_marine` is true, so the claimed
trigger equations do not hold of the unified refresh path. -/
theorem C5_counterexample :
    (unified_refresh_spot false staleScoredAges true true true true true true).scored_forecast_updated
      = false
    ∧ (needs_update staleScoredAges.scored_forecast 6
        || fetcher_needs_weather false staleScoredAges 6
        || fetcher_needs_marine false staleScoredAges 6) = true := by
  constructor
  · decide
  · decide

/-- Claim C5 (amended): in `SurfDataFetcher._update_spot_data` the
(non-forced) triggers satisfy the claimed equations, and at the Scenario-F
ledger (weather 7 h; marine, scored, half-day within a 6 h threshold) both
refresh paths fetch weather, do not fetch marine, re-derive the scored
layer, and re-derive the half-day layer; `UnifiedDataRefresh.refresh_spot`
instead gates its scored step on whether raw data was actually fetched. -/
theorem C5_refresh_triggers (ages : UpdateAges) (threshold : ℚ) :
    (fetcher_needs_scored false ages threshold
      = (needs_update ages.scored_forecast threshold
          || fetcher_needs_weather false ages threshold
          || fetcher_needs_marine false ages threshold)
    ∧ fetcher_needs_half_day false ages threshold
      = (needs_update ages.half_day threshold
          || fetcher_needs_scored false ages threshold)
    ∧ fetcher_needs_daily_scores false ages threshold
      = (needs_update ages.daily_scores threshold
          || fetcher_needs_scored false ages threshold))
    ∧ (update_spot_data false scenarioFAges 6 true true true true true true
        = { weather_updated := true, marine_updated := false, daily_updated := false
            scored_forecast_updated := true, half_day_updated := true
            daily_scores_updated := true })
    ∧ (unified_refresh_spot false scenarioFAges true true true true true true
        = { weather_updated := true, marine_updated := false, daily_updated := true
            scored_forecast_updated := true, half_day_updated := true
            daily_scores_updated := true }) := by
  refine ⟨⟨?_, ?_, ?_⟩, by decide, by decide⟩
  · simp [fetcher_needs_scored, fetcher_needs_weather, fetcher_needs_marine]
  · simp [fetcher_needs_half_day]
  · simp [fetcher_needs_daily_scores]

/-! ## Forecast query API: `src/api/forecast_api.py`

Spot names are taken already normalised (the `spot_name_to_id` lowering is
injective on the catalog), so the catalog is a list of ids and layer tables
are association lists from id to that spot's rows. -/

/-- Outcome of a read endpoint: a JSON payload or a 404 response carrying
the error message of the source. -/
inductive ApiResult (α : Type) where
  | ok (value : α)
  | notFound (msg : String)
deriving DecidableEq

/-- `get_daily_scores(spot_name)` (route `/api/forecast/daily/<spot_name>`):
404 for a spot outside the catalog; otherwise read the spot's daily-score
rows and answer 404 again when there are none. -/
def api_get_daily_scores (catalog : List String)
    (daily_scores : List (String × List ℕ)) (spot_name : String) : ApiResult (List ℕ) :=
  if catalog.contains spot_name then
    let rows := (daily_scores.lookup spot_name).getD []
    if rows = [] then ApiResult.notFound "No daily scores found"
    else ApiResult.ok rows
  else ApiResult.notFound "Spot not found"

/-- `get_detailed_forecast(spot_name)` (route
`/api/forecast/detailed/<spot_name>`): 404 for an unknown spot; 404 when
both the half-day layer and the scored layer are empty; otherwise a forecast
that is built from the half-day rows only when the scored layer is also
non-empty (the per-day payload itself is irrelevant to the claims and is
represented by the half-day rows). -/
def api_get_detailed_forecast (catalog : List String)
    (half_day_scores scored_forecasts : List (String × List ℕ))
    (spot_name : String) : ApiResult (List ℕ) :=
  if catalog.contains spot_name then
    let half := (half_day_scores.lookup spot_name).getD []
    let scored := (scored_forecasts.lookup spot_name).getD []
    if half = [] ∧ scored = [] then ApiResult.notFound "No forecast data found"
    else ApiResult.ok (if half ≠ [] ∧ scored ≠ [] then half else [])
  else ApiResult.notFound "Spot not found"

/-! ## Tide lookup: `get_tide_for_hour` inside `get_detailed_forecast` -/

/-- A marine row as the tide lookup reads it: timestamp plus optional
`sea_level_height_msl`. -/
structure MarineRow where
  date : ℤ
  sea_level_height_msl : Option ℚ
deriving DecidableEq

/-- How the hourly tide height was produced.  `synthetic` marks the
sinusoidal-simulation branch; its numeric value is a transcendental function
(`math.sin`) of the timestamp, and what the claim turns on is that a value
is produced at all rather than a missing marker, so the magnitude is not
carried. `fallback` is the fixed `1.5` returned when the marine layer is
empty. -/
inductive TideHeight where
  | fromData (h : ℚ)
  | synthetic
  | fallback (h : ℚ)
deriving DecidableEq

/-- `abs(marine_data['date'] - target).idxmin()`: the first row minimising
the absolute time difference. -/
def nearest_marine_row (rows : List MarineRow) (target : ℤ) : Option MarineRow :=
  rows.foldl (fun best r =>
    match best with
    | none => some r
    | some b => if |r.date - target| < |b.date - target| then some r else some b) none

/-- `get_tide_for_hour(target_time)`, restricted to the height it reports:
`1.5` when the marine layer is empty, the stored `sea_level_height_msl` of
the nearest row when present, and the sinusoidal simulation otherwise.  (The
rising/falling status string is derived from the same values and adds
nothing to the claim.) -/
def get_tide_for_hour (rows : List MarineRow) (target : ℤ) : TideHeight :=
  match nearest_marine_row rows target with
  | none => TideHeight.fallback 1.5
  | some row =>
    match row.sea_level_height_msl with
    | some h => TideHeight.fromData h
    | none => TideHeight.synthetic

/-! ## Claims about the API -/

/-- Claim C7 (counterexample): for a catalogued spot whose daily-score layer
is empty, the daily view answers a 404 error, not an empty collection. -/
theorem C7_counterexample :
    api_get_daily_scores ["supertubos"] [] "supertubos"
      = ApiResult.notFound "No daily scores found"
    ∧ (∀ rows : List ℕ,
        api_get_daily_scores ["supertubos"] [] "supertubos" ≠ ApiResult.ok rows)
    ∧ api_get_detailed_forecast ["supertubos"] [] [] "supertubos"
      = ApiResult.notFound "No forecast data found" := by
  refine ⟨by decide, ?_, by decide⟩
  intro rows
  simp [api_get_daily_scores]

/-- Claim C7 (amended): an unknown spot gets the "Spot not found" 404 from
both views; a known spot with no daily rows gets a "No daily scores found"
404 from the daily view rather than an empty collection, and the detailed
view 404s exactly when both the half-day and the scored layers are empty,
answering normally otherwise. -/
theorem C7_empty_layer_is_404 (catalog : List String)
    (daily_scores half_day_scores scored_forecasts : List (String × List ℕ))
    (spot_name : String) :
    (¬ catalog.contains spot_name = true →
      api_get_daily_scores catalog daily_scores spot_name
        = ApiResult.notFound "Spot not found"
      ∧ api_get_detailed_forecast catalog half_day_scores scored_forecasts spot_name
        = ApiResult.notFound "Spot not found")
    ∧ (catalog.contains spot_name = true →
        ((daily_scores.lookup spot_name).getD [] = [] →
          api_get_daily_scores catalog daily_scores spot_name
            = ApiResult.notFound "No daily scores found")
        ∧ ((daily_scores.lookup spot_name).getD [] ≠ [] →
          api_get_daily_scores catalog daily_scores spot_name
            = ApiResult.ok ((daily_scores.lookup spot_name).getD []))
        ∧ ((half_day_scores.lookup spot_name).getD [] = []
            ∧ (scored_forecasts.lookup spot_name).getD [] = [] →
          api_get_detailed_forecast catalog half_day_scores scored_forecasts spot_name
            = ApiResult.notFound "No forecast data found")
        ∧ (¬((half_day_scores.lookup spot_name).getD [] = []
            ∧ (scored_forecasts.lookup spot_name).getD [] = []) →
          api_get_detailed_forecast catalog half_day_scores scored_forecasts spot_name
            = ApiResult.ok (if (half_day_scores.lookup spot_name).getD [] ≠ []
                ∧ (scored_forecasts.lookup spot_name).getD [] ≠ []
              then (half_day_scores.lookup spot_name).getD [] else []))) := by
  constructor
  · intro hmiss
    have hmiss' : spot_name ∉ catalog := by simpa using hmiss
    constructor
    · simp [api_get_daily_scores, hmiss']
    · simp [api_get_detailed_forecast, hmiss']
  · intro hmem
    have hmem' : spot_name ∈ catalog := by simpa using hmem
    refine ⟨?_, ?_, ?_, ?_⟩
    · intro hempty
      simp [api_get_daily_scores, hmem', hempty]
    · intro hne
      simp [api_get_daily_scores, hmem', hne]
    · intro hboth
      simp [api_get_detailed_forecast, hmem', hboth.1, hboth.2]
    · intro hnot
      simp only [api_get_detailed_forecast]
      rw [if_neg hnot, if_pos hmem]

/-- Claim C7 witness: the amended theorem at a known spot carrying one daily
row and one half-day plus one scored row. -/
theorem C7_empty_layer_is_404_witness :
    api_get_daily_scores ["supertubos"] [("supertubos", [3])] "supertubos"
      = ApiResult.ok [3]
    ∧ api_get_detailed_forecast ["supertubos"] [("supertubos", [4])]
        [("supertubos", [5])] "supertubos" = ApiResult.ok [4] := by
  have h := C7_empty_layer_is_404 ["supertubos"] [("supertubos", [3])]
    [("supertubos", [4])] [("supertubos", [5])] "supertubos"
  have hmem : (["supertubos"].contains "supertubos") = true := by decide
  refine ⟨(h.2 hmem).2.1 (by decide), ?_⟩
  have := (h.2 hmem).2.2.2 (by decide)
  simpa using this

/-- The running-minimum step of `nearest_marine_row`, after seeding, keeps a
row of the list that minimises the distance to the target. -/
lemma nearest_marine_row_aux (target : ℤ) (rows : List MarineRow) (b : MarineRow) :
    ∃ row, rows.foldl (fun best r =>
        match best with
        | none => some r
        | some b => if |r.date - target| < |b.date - target| then some r else some b)
        (some b) = some row
      ∧ (row = b ∨ row ∈ rows)
      ∧ |row.date - target| ≤ |b.date - target|
      ∧ ∀ r ∈ rows, |row.date - target| ≤ |r.date - target| := by
  induction rows generalizing b with
  | nil => exact ⟨b, rfl, Or.inl rfl, le_refl _, by simp⟩
  | cons r rs ih =>
    by_cases h : |r.date - target| < |b.date - target|
    · obtain ⟨row, hfold, hmem, hle, hall⟩ := ih r
      refine ⟨row, ?_, ?_, ?_, ?_⟩
      · simpa [h] using hfold
      · rcases hmem with h1 | h1
        · exact Or.inr (by simp [h1])
        · exact Or.inr (List.mem_cons_of_mem _ h1)
      · exact le_trans hle (le_of_lt h)
      · intro x hx
        rcases List.mem_cons.mp hx with h1 | h1
        · exact h1 ▸ hle
        · exact hall x h1
    · obtain ⟨row, hfold, hmem, hle, hall⟩ := ih b
      refine ⟨row, ?_, ?_, hle, ?_⟩
      · simpa [h] using hfold
      · rcases hmem with h1 | h1
        · exact Or.inl h1
        · exact Or.inr (List.mem_cons_of_mem _ h1)
      · intro x hx
        rcases List.mem_cons.mp hx with h1 | h1
        · exact h1 ▸ le_trans hle (not_lt.mp h)
        · exact hall x h1

/-- `nearest_marine_row` answers a member of the list that minimises the
absolute time difference to the target. -/
lemma nearest_marine_row_spec (rows : List MarineRow) (target : ℤ) (row : MarineRow)
    (h : nearest_marine_row rows target = some row) :
    row ∈ rows ∧ ∀ r ∈ rows, |row.date - target| ≤ |r.date - target| := by
  match rows with
  | [] => simp [nearest_marine_row] at h
  | r :: rs =>
    obtain ⟨row', hfold, hmem, hle, hall⟩ := nearest_marine_row_aux target rs r
    have : nearest_marine_row (r :: rs) target = some row' := by
      simpa [nearest_marine_row] using hfold
    have hrow : row' = row := by
      rw [this] at h; exact Option.some.inj h
    subst hrow
    refine ⟨?_, ?_⟩
    · rcases hmem with h1 | h1
      · simp [h1]
      · exact List.mem_cons_of_mem _ h1
    · intro x hx
      rcases List.mem_cons.mp hx with h1 | h1
      · exact h1 ▸ hle
      · exact hall x h1

/-- Claim C9 (counterexample): when the nearest marine row lacks a sea-level
value, the tide lookup substitutes the sinusoidal simulation instead of
reporting the value missing, and an empty marine layer gets the fixed
fallback `1.5`. -/
theorem C9_counterexample :
    get_tide_for_hour [⟨0, none⟩] 0 = TideHeight.synthetic
    ∧ get_tide_for_hour [] 0 = TideHeight.fallback 1.5 := by
  constructor <;> rfl

/-- Claim C9 (amended): the hourly sea-level lookup is nearest-neighbor in
time — the chosen row belongs to the marine layer and minimises the absolute
time difference — truly stored values are reported as-is, but a missing
value is replaced by the synthetic simulation and an empty layer by the
fixed `1.5` fallback, never by a missing marker. -/
theorem C9_tide_lookup (rows : List MarineRow) (target : ℤ) (row : MarineRow)
    (h : nearest_marine_row rows target = some row) :
    row ∈ rows
    ∧ (∀ r ∈ rows, |row.date - target| ≤ |r.date - target|)
    ∧ (∀ v, row.sea_level_height_msl = some v →
        get_tide_for_hour rows target = TideHeight.fromData v)
    ∧ (row.sea_level_height_msl = none →
        get_tide_for_hour rows target = TideHeight.synthetic) := by
  obtain ⟨hmem, hmin⟩ := nearest_marine_row_spec rows target row h
  refine ⟨hmem, hmin, ?_, ?_⟩
  · intro v hv
    simp [get_tide_for_hour, h, hv]
  · intro hv
    simp [get_tide_for_hour, h, hv]

/-- Claim C9 witness: the lookup theorem at a two-row marine layer, where
the nearest row to time 1 is the row at time 0 carrying sea level 2. -/
theorem C9_tide_lookup_witness :
    (⟨0, some 2⟩ : MarineRow) ∈ [(⟨0, some 2⟩ : MarineRow), ⟨5, none⟩]
    ∧ get_tide_for_hour [⟨0, some 2⟩, ⟨5, none⟩] 1 = TideHeight.fromData 2 := by
  have h := C9_tide_lookup [⟨0, some 2⟩, ⟨5, none⟩] 1 ⟨0, some 2⟩ (by decide)
  exact ⟨h.1, h.2.2.1 2 rfl⟩

/-! ## Claims about swell-direction scoring -/

/-- Wrap-aware membership of a direction in a preference range, as both the
core test of `score_swell_direction` and `get_wind_relationship` implement
it: wrapped interpretation when `min > max`, plain interval otherwise. -/
def in_dir_range (θ : ℚ) (r : ℚ × ℚ) : Prop :=
  if r.2 < r.1 then r.1 ≤ θ ∨ θ ≤ r.2 else r.1 ≤ θ ∧ θ ≤ r.2

/-- The 30°-buffered membership test exactly as `score_swell_direction`
implements it: the endpoints are widened by 30 with plain arithmetic, so for
a non-wrapping range the buffered interval never wraps past 0/360. -/
def in_buffered_range (θ : ℚ) (r : ℚ × ℚ) : Prop :=
  if r.2 < r.1 then r.1 - 30 ≤ θ ∨ θ ≤ r.2 + 30 else r.1 - 30 ≤ θ ∧ θ ≤ r.2 + 30

instance (θ : ℚ) (r : ℚ × ℚ) : Decidable (in_dir_range θ r) := by
  unfold in_dir_range; infer_instance

instance (θ : ℚ) (r : ℚ × ℚ) : Decidable (in_buffered_range θ r) := by
  unfold in_buffered_range; infer_instance

/-- Claim C8 (counterexample): direction 350° against the range (0°, 60°).
Modulo 360 the direction is 10° short of the range, hence inside the
30°-buffered interval and outside the core, so the claim demands −1 — but
the code compares 350 against the un-wrapped buffered interval [−30, 90] and
answers −10. -/
theorem C8_counterexample :
    score_swell_direction 350 (0, 60) = -10
    ∧ ((0 : ℚ) - 30 ≤ 350 - 360 ∧ (350 : ℚ) - 360 ≤ 60 + 30)
    ∧ ¬((0 : ℚ) ≤ 350 ∧ (350 : ℚ) ≤ 60) := by
  refine ⟨by norm_num [score_swell_direction], by norm_num, by norm_num⟩

/-- Claim C8 (amended): swell-direction scoring returns 0 exactly on the
wrap-aware core range, −1 on the buffered test as the code computes it —
endpoints widened by 30 with plain (non-modular) arithmetic, so the buffered
interval of a non-wrapping range does not wrap past 0/360 — and −10
otherwise. -/
theorem C8_swell_direction_cases (θ mn mx : ℚ) :
    (in_dir_range θ (mn, mx) → score_swell_direction θ (mn, mx) = 0)
    ∧ (¬in_dir_range θ (mn, mx) → in_buffered_range θ (mn, mx) →
        score_swell_direction θ (mn, mx) = -1)
    ∧ (¬in_dir_range θ (mn, mx) → ¬in_buffered_range θ (mn, mx) →
        score_swell_direction θ (mn, mx) = -10) := by
  have key : score_swell_direction θ (mn, mx)
      = if in_dir_range θ (mn, mx) then 0
        else if in_buffered_range θ (mn, mx) then -1 else -10 := by
    simp only [score_swell_direction, in_dir_range, in_buffered_range]
    by_cases hw : mx < mn <;> simp [hw]
  refine ⟨?_, ?_, ?_⟩
  · intro h1
    rw [key, if_pos h1]
  · intro h1 h2
    rw [key, if_neg h1, if_pos h2]
  · intro h1 h2
    rw [key, if_neg h1, if_neg h2]

/-- Claim C8 witness: the amended trichotomy at the Scenario-A core
direction (290° in (260°, 340°), score 0) and at a buffered direction
(250° against the same range, score −1). -/
theorem C8_swell_direction_cases_witness :
    score_swell_direction 290 (260, 340) = 0
    ∧ score_swell_direction 250 (260, 340) = -1 := by
  constructor
  · exact (C8_swell_direction_cases 290 260 340).1 (by norm_num [in_dir_range])
  · exact (C8_swell_direction_cases 250 260 340).2.1
      (by norm_num [in_dir_range]) (by norm_num [in_buffered_range])

/-! ## Window Selector: `src/window_selection/optimal_windows.py`

Dates are day numbers (ℤ), so an inclusive date interval has
`end - start + 1` days.  Scores are rationals.  `pandas.sort_values` is
modelled by an insertion sort over a boolean comparator — which ordering the
sort produces does not affect the selector's invariants, only the identity
of the survivors. -/

/-- Insert into a sorted list, before the first element the comparator does
not place earlier. -/
def insertSorted (le : α → α → Bool) (x : α) : List α → List α
  | [] => [x]
  | y :: ys => if le x y then x :: y :: ys else y :: insertSorted le x ys

/-- Insertion sort by a boolean comparator. -/
def sortBy (le : α → α → Bool) : List α → List α
  | [] => []
  | x :: xs => insertSorted le x (sortBy le xs)

lemma mem_insertSorted {le : α → α → Bool} {x a : α} {l : List α} :
    a ∈ insertSorted le x l ↔ a = x ∨ a ∈ l := by
  induction l with
  | nil => simp [insertSorted]
  | cons y ys ih =>
    unfold insertSorted
    split
    · simp
    · simp only [List.mem_cons, ih]
      tauto

lemma mem_sortBy {le : α → α → Bool} {a : α} {l : List α} :
    a ∈ sortBy le l ↔ a ∈ l := by
  induction l with
  | nil => simp [sortBy]
  | cons x xs ih =>
    simp only [sortBy, mem_insertSorted, ih, List.mem_cons]

/-- One half-day score row as the selector reads it: local date, half-day
label (`"morning"`/`"afternoon"`, used only for ordering), average points. -/
structure HalfDayRow where
  date : ℤ
  half_day : String
  avg_total_points : ℚ

/-- `half_day_scores.groupby('date')['avg_total_points'].mean()`: one entry
per distinct date, ascending, carrying the mean of that date's half-day
scores (pandas `groupby` sorts its keys). -/
def dailyScores (rows : List HalfDayRow) : List (ℤ × ℚ) :=
  let dates := sortBy (fun a b => decide (a ≤ b)) (rows.map (·.date)).dedup
  dates.map (fun d =>
    let vals := (rows.filter (fun r => r.date = d)).map (·.avg_total_points)
    (d, vals.sum / (vals.length : ℚ)))

/-- Sample variance with the pandas `ddof=1` convention, `none` (NaN) for
fewer than two samples.  `Series.std()` is its square root; since the
square root is monotone and window comparisons only ever order standard
deviations, ordering variances is the same ordering. -/
def sampleVariance (xs : List ℚ) : Option ℚ :=
  if xs.length < 2 then none
  else
    let m := xs.sum / (xs.length : ℚ)
    some ((xs.map (fun x => (x - m) ^ 2)).sum / ((xs.length : ℚ) - 1))

/-- A candidate window as built in `select_optimal_windows`. -/
structure TripWindow where
  start_date : ℤ
  end_date : ℤ
  days : ℕ
  avg_score : ℚ
  total_score : ℚ
  consistency : Option ℚ
deriving DecidableEq

/-- All candidate windows: every `duration` in `[min_days, max_days]`,
every start index with `start_idx + duration ≤ N`, kept only when
`avg_score >= min_score`.  A zero-length slice has a NaN mean in pandas and
`NaN >= min_score` is false, which the `scores ≠ []` conjunct mirrors. -/
def windowCandidates (daily : List (ℤ × ℚ)) (min_days max_days : ℕ)
    (min_score : ℚ) : List TripWindow :=
  (List.range' min_days (max_days + 1 - min_days)).flatMap (fun duration =>
    (List.range (daily.length + 1 - duration)).filterMap (fun start_idx =>
      let window := (daily.drop start_idx).take duration
      let scores := window.map (·.2)
      let avg_score := scores.sum / (scores.length : ℚ)
      if scores ≠ [] ∧ min_score ≤ avg_score then
        some { start_date := ((daily.drop start_idx).take duration).head?.getD (0, 0) |>.1
               end_date := ((daily.drop start_idx).take duration).getLast?.getD (0, 0) |>.1
               days := duration
               avg_score := avg_score
               total_score := scores.sum
               consistency := sampleVariance scores }
      else none))

/-- `_calculate_overlap_days(start1, end1, start2, end2)`: inclusive-day
overlap of two date ranges. -/
def calculate_overlap_days (start1 end1 start2 end2 : ℤ) : ℤ :=
  let overlap_start := max start1 start2
  let overlap_end := min end1 end2
  if overlap_start ≤ overlap_end then overlap_end - overlap_start + 1 else 0

/-- The comparator of `sort_values(['avg_score', 'consistency'],
ascending=[False, True])`: higher average first, then lower consistency,
with NaN consistencies (single-day windows) placed last as pandas does. -/
def windowOrder (a b : TripWindow) : Bool :=
  if a.avg_score = b.avg_score then
    match a.consistency, b.consistency with
    | none, none => true
    | none, some _ => false
    | some _, none => true
    | some x, some y => decide (x ≤ y)
  else decide (b.avg_score < a.avg_score)

/-- `_remove_overlapping_windows(windows_df, max_overlap_days)`: re-sort by
average score descending, then greedily keep each window whose overlap with
every already-kept window stays within `max_overlap_days`. -/
def remove_overlapping_windows (max_overlap_days : ℤ)
    (windows : List TripWindow) : List TripWindow :=
  let sorted := sortBy (fun a b => decide (b.avg_score ≤ a.avg_score)) windows
  sorted.foldl (fun selected w =>
    if selected.all (fun s =>
        decide (calculate_overlap_days w.start_date w.end_date
          s.start_date s.end_date ≤ max_overlap_days)) then
      selected ++ [w]
    else selected) []

/-- `select_optimal_windows(half_day_scores, min_days, max_days,
min_score)`: build daily scores, enumerate candidates, sort, de-overlap
(with the source's default `max_overlap_days = 2`), return the top 10. -/
def select_optimal_windows (half_day_scores : List HalfDayRow)
    (min_days max_days : ℕ) (min_score : ℚ) : List TripWindow :=
  let daily := dailyScores half_day_scores
  let windows := windowCandidates daily min_days max_days min_score
  let sorted := sortBy windowOrder windows
  (remove_overlapping_windows 2 sorted).take 10

/-! ## Claims about the Window Selector -/

/-- The inclusive overlap of two date ranges is symmetric. -/
lemma calculate_overlap_days_comm (s1 e1 s2 e2 : ℤ) :
    calculate_overlap_days s1 e1 s2 e2 = calculate_overlap_days s2 e2 s1 e1 := by
  unfold calculate_overlap_days
  rw [max_comm, min_comm]

/-- Every candidate window clears the score threshold and has a duration
inside `[min_days, max_days]`. -/
lemma mem_windowCandidates {daily : List (ℤ × ℚ)} {min_days max_days : ℕ}
    {min_score : ℚ} {w : TripWindow}
    (hw : w ∈ windowCandidates daily min_days max_days min_score) :
    min_score ≤ w.avg_score ∧ min_days ≤ w.days ∧ w.days ≤ max_days := by
  unfold windowCandidates at hw
  rw [List.mem_flatMap] at hw
  obtain ⟨duration, hdur, hw⟩ := hw
  rw [List.mem_filterMap] at hw
  obtain ⟨start_idx, _, heq⟩ := hw
  have hd : min_days ≤ duration ∧ duration < min_days + (max_days + 1 - min_days) :=
    List.mem_range'_1.mp hdur
  simp only [] at heq
  split at heq
  · rename_i hcond
    cases heq
    refine ⟨hcond.2, hd.1, ?_⟩
    show duration ≤ max_days
    omega
  · exact absurd heq (by simp)

/-- The greedy pass of `_remove_overlapping_windows`: starting from a
selection that is pairwise within the overlap budget, it stays pairwise
within the budget, and every selected window comes from the start selection
or the remaining input. -/
lemma greedy_select_invariant (max_overlap_days : ℤ) (l acc : List TripWindow)
    (hacc : acc.Pairwise (fun a b =>
      calculate_overlap_days a.start_date a.end_date b.start_date b.end_date
        ≤ max_overlap_days)) :
    (l.foldl (fun selected w =>
        if selected.all (fun s =>
            decide (calculate_overlap_days w.start_date w.end_date
              s.start_date s.end_date ≤ max_overlap_days)) then
          selected ++ [w]
        else selected) acc).Pairwise (fun a b =>
      calculate_overlap_days a.start_date a.end_date b.start_date b.end_date
        ≤ max_overlap_days)
    ∧ ∀ w ∈ l.foldl (fun selected w =>
        if selected.all (fun s =>
            decide (calculate_overlap_days w.start_date w.end_date
              s.start_date s.end_date ≤ max_overlap_days)) then
          selected ++ [w]
        else selected) acc, w ∈ acc ∨ w ∈ l := by
  induction l generalizing acc with
  | nil => exact ⟨hacc, fun w hw => Or.inl hw⟩
  | cons x xs ih =>
    simp only [List.foldl_cons]
    by_cases hfit : acc.all (fun s =>
        decide (calculate_overlap_days x.start_date x.end_date
          s.start_date s.end_date ≤ max_overlap_days))
    · rw [if_pos hfit]
      have hacc' : (acc ++ [x]).Pairwise (fun a b =>
          calculate_overlap_days a.start_date a.end_date b.start_date b.end_date
            ≤ max_overlap_days) := by
        rw [List.pairwise_append]
        refine ⟨hacc, List.pairwise_singleton _ _, ?_⟩
        intro a ha b hb
        rw [List.mem_singleton] at hb
        subst hb
        have := List.all_eq_true.mp hfit a ha
        rw [calculate_overlap_days_comm]
        exact of_decide_eq_true this
      obtain ⟨hp, hmem⟩ := ih (acc ++ [x]) hacc'
      refine ⟨hp, ?_⟩
      intro w hw
      rcases hmem w hw with h1 | h1
      · rcases List.mem_append.mp h1 with h2 | h2
        · exact Or.inl h2
        · exact Or.inr (by simp [List.mem_singleton.mp h2])
      · exact Or.inr (List.mem_cons_of_mem _ h1)
    · rw [if_neg hfit]
      obtain ⟨hp, hmem⟩ := ih acc hacc
      refine ⟨hp, ?_⟩
      intro w hw
      rcases hmem w hw with h1 | h1
      · exact Or.inl h1
      · exact Or.inr (List.mem_cons_of_mem _ h1)

/-- `_remove_overlapping_windows` keeps a pairwise-within-budget subset of
its input. -/
lemma remove_overlapping_windows_invariant (max_overlap_days : ℤ)
    (windows : List TripWindow) :
    (remove_overlapping_windows max_overlap_days windows).Pairwise (fun a b =>
      calculate_overlap_days a.start_date a.end_date b.start_date b.end_date
        ≤ max_overlap_days)
    ∧ ∀ w ∈ remove_overlapping_windows max_overlap_days windows, w ∈ windows := by
  unfold remove_overlapping_windows
  obtain ⟨hp, hmem⟩ := greedy_select_invariant max_overlap_days
    (sortBy (fun a b => decide (b.avg_score ≤ a.avg_score)) windows) [] (List.Pairwise.nil)
  refine ⟨hp, ?_⟩
  intro w hw
  rcases hmem w hw with h1 | h1
  · exact absurd h1 (List.not_mem_nil w)
  · exact mem_sortBy.mp h1

/-- Claim C4: every window returned by the Selector clears the minimum
average score and has a duration within `[min_days, max_days]`; any two
returned windows overlap by at most 2 inclusive days (the source's default
`max_overlap_days`); and at most 10 windows are returned. -/
theorem C4_selector_invariants (rows : List HalfDayRow) (min_days max_days : ℕ)
    (min_score : ℚ) :
    (∀ w ∈ select_optimal_windows rows min_days max_days min_score,
        min_score ≤ w.avg_score ∧ min_days ≤ w.days ∧ w.days ≤ max_days)
    ∧ (select_optimal_windows rows min_days max_days min_score).Pairwise (fun a b =>
        calculate_overlap_days a.start_date a.end_date b.start_date b.end_date ≤ 2)
    ∧ (select_optimal_windows rows min_days max_days min_score).length ≤ 10 := by
  obtain ⟨hp, hmem⟩ := remove_overlapping_windows_invariant 2
    (sortBy windowOrder (windowCandidates (dailyScores rows) min_days max_days min_score))
  refine ⟨?_, ?_, ?_⟩
  · intro w hw
    have h1 : w ∈ remove_overlapping_windows 2
        (sortBy windowOrder (windowCandidates (dailyScores rows) min_days max_days min_score)) :=
      (List.take_sublist _ _).subset hw
    exact mem_windowCandidates (mem_sortBy.mp (hmem w h1))
  · exact hp.sublist (List.take_sublist _ _)
  · exact List.length_take_le _ _

/-- Claim C4 witness: the invariants applied to a one-day score series with
`min_days = max_days = 1` and `min_score = 4`, at its single returned
window. -/
theorem C4_selector_invariants_witness :
    (4 : ℚ) ≤ (5 : ℚ) ∧ 1 ≤ 1 ∧ 1 ≤ 1 := by
  have hmem : (⟨0, 0, 1, 5, 5, none⟩ : TripWindow)
      ∈ select_optimal_windows [⟨0, "m", 5⟩] 1 1 4 := by
    norm_num [select_optimal_windows, dailyScores, windowCandidates, sortBy, insertSorted,
      remove_overlapping_windows, windowOrder, sampleVariance, calculate_overlap_days,
      List.range_succ, List.range', List.flatMap, List.filterMap, List.dedup]
  exact (C4_selector_invariants [⟨0, "m", 5⟩] 1 1 4).1 _ hmem
